import Mathlib

/-!
Verification of the GenAI-Book-Assistant front-end (src/static/js/app.js)
and of the backend orchestration contract its spec describes.

The repository ships the browser front-end only; the backend (Document
Registry, Retrieval Scoping, Answer Service, Session Store, Status
Reporter) is described by the spec but its code is not in the supplied
sources.  Definitions embedding front-end code cite the function in
app.js they translate; definitions for the backend carry a doc comment
starting with "Modelled from the spec:" and follow the spec's wording.
-/

set_option autoImplicit false

/-- Source attribution entry of an answer, as consumed by `addMessage`
in app.js and described by the Answer Service contract. -/
structure Source where
  document_title : String
  chapter_title : Option String
  chunk_index : Nat
  is_reference : Bool
deriving Repr, DecidableEq

/-- Presentation key of a source, translating the expression
`source.chapter_title || source.document_title` in `addMessage`
(app.js).  The JS `||` falls through both when `chapter_title` is
absent and when it is the empty string, since both are falsy. -/
def sourceKey (s : Source) : String :=
  match s.chapter_title with
  | some t => if t = "" then s.document_title else t
  | none => s.document_title

/-- One step of the `reduce` in `addMessage` (app.js): record a chunk
index under its key, creating the key slot on first sight and skipping
the index when the slot already holds it.  JS object string keys keep
insertion order, modelled by an ordered association list. -/
def insertSource : List (String × List Nat) → String → Nat → List (String × List Nat)
  | [], key, ci => [(key, [ci])]
  | (k, cis) :: rest, key, ci =>
    if k = key then
      (k, if ci ∈ cis then cis else cis ++ [ci]) :: rest
    else
      (k, cis) :: insertSource rest key ci

/-- The `sourceMap` accumulator built by the `reduce` in `addMessage`
(app.js): groups the retrieved sources by presentation key,
deduplicating chunk indices within each key. -/
def sourceMap (sources : List Source) : List (String × List Nat) :=
  sources.foldl (fun acc s => insertSource acc (sourceKey s) s.chunk_index) []

/-- One rendered chat bubble, as appended to the messages pane by
`addMessage` (app.js). -/
structure ChatMessage where
  role : String
  content : String
  sourceGroups : List (String × List Nat)
deriving Repr, DecidableEq

/-- Translation of `addMessage` (app.js): appends one bubble whose
source presentation is the deduplicated grouping; the sources array is
read but never written, so the second component hands the ranked
sequence back unchanged for any non-presentation consumer. -/
def addMessage (messages : List ChatMessage) (role content : String)
    (sources : List Source) : List ChatMessage × List Source :=
  (messages ++ [⟨role, content, sourceMap sources⟩], sources)

/-- Translation of JS `String.prototype.trim` as used on the question
input in `askQuestion` (app.js): strip leading and trailing
whitespace. -/
def jsTrim (s : String) : String :=
  ⟨((s.data.dropWhile Char.isWhitespace).reverse.dropWhile Char.isWhitespace).reverse⟩

/-- UI state read and written by `askQuestion` (app.js): the question
input, the document filter dropdown, the spoiler-protection toggle and
slider, the mode flag, the session id, the messages pane and the Ask
button. -/
structure UIState where
  questionInputValue : String
  documentFilterValue : String
  spoilerProtectionEnabled : Bool
  maxChapter : Option Nat
  currentMode : String
  sessionId : Option String
  messages : List ChatMessage
  askBtnDisabled : Bool
  askBtnLabel : String
deriving Repr, DecidableEq

/-- HTTP request issued by `askQuestion` (app.js): target URL and JSON
body fields. -/
structure AskRequest where
  url : String
  bodyQuestion : String
  bodyMaxChunks : Option Nat
deriving Repr, DecidableEq

/-- Rendering of `URLSearchParams.toString()` for the parameter lists
`askQuestion` builds (values used here need no percent-encoding). -/
def renderParams (ps : List (String × String)) : String :=
  String.intercalate "&" (ps.map (fun p => p.1 ++ "=" ++ p.2))

/-- Translation of `askQuestion` (app.js) up to the `fetch` call: trim
the question and return unchanged with no request when it is empty;
otherwise clear the input, append the user bubble, disable the button
and build the request URL and body from the mode, filter, spoiler and
session state.  `params.set` for `session_id` behaves as an append
because the key was not added before. -/
def askQuestion (s : UIState) : UIState × Option AskRequest :=
  let question := jsTrim s.questionInputValue
  if question = "" then
    (s, none)
  else
    let s1 := { s with questionInputValue := "" }
    let s2 := { s1 with messages := (addMessage s1.messages "user" question []).1 }
    let s3 := { s2 with askBtnDisabled := true,
                        askBtnLabel := "<span class=\"loading\"></span>" }
    let documentId := s.documentFilterValue
    let params0 := if documentId ≠ "" then [("document_id", documentId)] else []
    let params1 := params0 ++
      (match s.maxChapter with
       | some m =>
         if s.spoilerProtectionEnabled && m ≠ 0 then [("max_chapter", toString m)] else []
       | none => [])
    let queryString := if renderParams params1 ≠ "" then "?" ++ renderParams params1 else ""
    if s.currentMode = "conversational" then
      let params2 := params1 ++
        (match s.sessionId with
         | some sid => [("session_id", sid)]
         | none => [])
      (s3, some { url := "/api/v1/conversation/ask?" ++ renderParams params2,
                  bodyQuestion := question, bodyMaxChunks := none })
    else
      (s3, some { url := "/api/v1/chat/ask" ++ queryString,
                  bodyQuestion := question, bodyMaxChunks := some 3 })

/-- Keys of the grouping after one insertion: unchanged when the key is
already present, extended at the end otherwise. -/
theorem insertSource_keys (acc : List (String × List Nat)) (key : String) (ci : Nat) :
    (insertSource acc key ci).map Prod.fst =
      if key ∈ acc.map Prod.fst then acc.map Prod.fst else acc.map Prod.fst ++ [key] := by
  induction acc with
  | nil => simp [insertSource]
  | cons p rest ih =>
    obtain ⟨k, cis⟩ := p
    by_cases h : k = key
    · simp [insertSource, h]
    · simp only [insertSource, if_neg h, List.map_cons, ih]
      by_cases hmem : key ∈ rest.map Prod.fst
      · simp [hmem, Ne.symm h]
      · simp [hmem, Ne.symm h]

/-- Distinct keys are preserved by one insertion. -/
theorem insertSource_keys_nodup (acc : List (String × List Nat)) (key : String) (ci : Nat)
    (h : (acc.map Prod.fst).Nodup) : ((insertSource acc key ci).map Prod.fst).Nodup := by
  rw [insertSource_keys]
  by_cases hmem : key ∈ acc.map Prod.fst
  · simpa [hmem] using h
  · simp only [hmem, if_false]
    exact List.Nodup.append h (List.nodup_singleton key) (by simpa using hmem)

/-- Duplicate-free per-key chunk lists are preserved by one insertion. -/
theorem insertSource_groups_nodup (acc : List (String × List Nat)) (key : String) (ci : Nat)
    (h : ∀ g ∈ acc, (g.2).Nodup) : ∀ g ∈ insertSource acc key ci, (g.2).Nodup := by
  induction acc with
  | nil =>
    intro g hg
    simp only [insertSource, List.mem_singleton] at hg
    subst hg
    exact List.nodup_singleton ci
  | cons p rest ih =>
    obtain ⟨k, cis⟩ := p
    intro g hg
    by_cases hk : k = key
    · simp only [insertSource, if_pos hk, List.mem_cons] at hg
      rcases hg with hg | hg
      · subst hg
        by_cases hci : ci ∈ cis
        · simpa [hci] using h (k, cis) (by simp)
        · have hnd : cis.Nodup := h (k, cis) (by simp)
          simp only [hci, if_false]
          exact List.Nodup.append hnd (List.nodup_singleton ci) (by simpa using hci)
      · exact h g (List.mem_cons_of_mem _ hg)
    · simp only [insertSource, if_neg hk, List.mem_cons] at hg
      rcases hg with hg | hg
      · subst hg
        exact h (k, cis) (by simp)
      · exact ih (fun g' hg' => h g' (List.mem_cons_of_mem _ hg')) g hg

/-- Both deduplication invariants hold of the grouping folded from any
starting accumulator that satisfies them. -/
theorem sourceMap_fold_invariant (sources : List Source) :
    ∀ acc : List (String × List Nat),
      (acc.map Prod.fst).Nodup → (∀ g ∈ acc, (g.2).Nodup) →
      (((sources.foldl (fun acc s => insertSource acc (sourceKey s) s.chunk_index) acc).map
          Prod.fst).Nodup ∧
        ∀ g ∈ sources.foldl (fun acc s => insertSource acc (sourceKey s) s.chunk_index) acc,
          (g.2).Nodup) := by
  induction sources with
  | nil => intro acc h1 h2; exact ⟨h1, h2⟩
  | cons s rest ih =>
    intro acc h1 h2
    simp only [List.foldl_cons]
    exact ih _ (insertSource_keys_nodup acc _ _ h1) (insertSource_groups_nodup acc _ _ h2)

/-- C8: the presented sources are deduplicated by (chapter title or
document title, chunk index) — distinct group keys, and no chunk index
repeated within a group, so each pair appears at most once — while
`addMessage` hands the ranked sources sequence back unchanged for any
non-presentation consumer. -/
theorem sources_dedup_order_preserved (sources : List Source) (messages : List ChatMessage)
    (role content : String) :
    ((sourceMap sources).map Prod.fst).Nodup ∧
      (∀ g ∈ sourceMap sources, (g.2).Nodup) ∧
      (addMessage messages role content sources).2 = sources := by
  have h := sourceMap_fold_invariant sources [] (by simp) (by simp)
  exact ⟨h.1, h.2, rfl⟩

/-- Concrete run of the C8 theorem: a source list with a repeated
(key, index) pair groups to duplicate-free keys and index lists, and
the sources list comes back unchanged. -/
theorem sources_dedup_order_preserved_witness :
    ((sourceMap [⟨"Book", some "Ch 1", 0, false⟩, ⟨"Book", some "Ch 1", 0, false⟩,
        ⟨"Book", none, 2, false⟩]).map Prod.fst).Nodup ∧
      (∀ g ∈ sourceMap [⟨"Book", some "Ch 1", 0, false⟩, ⟨"Book", some "Ch 1", 0, false⟩,
        ⟨"Book", none, 2, false⟩], (g.2).Nodup) ∧
      (addMessage [] "assistant" "ans" [⟨"Book", some "Ch 1", 0, false⟩,
        ⟨"Book", some "Ch 1", 0, false⟩, ⟨"Book", none, 2, false⟩]).2 =
        [⟨"Book", some "Ch 1", 0, false⟩, ⟨"Book", some "Ch 1", 0, false⟩,
          ⟨"Book", none, 2, false⟩] :=
  sources_dedup_order_preserved
    [⟨"Book", some "Ch 1", 0, false⟩, ⟨"Book", some "Ch 1", 0, false⟩,
      ⟨"Book", none, 2, false⟩] [] "assistant" "ans"

/-- C10: when the question input trims to the empty string,
`askQuestion` returns at the guard: the UI state is exactly unchanged
and no HTTP request is issued. -/
theorem askQuestion_empty_noop (s : UIState) (h : jsTrim s.questionInputValue = "") :
    askQuestion s = (s, none) := by
  simp [askQuestion, h]

/-- Concrete run of the C10 theorem: a whitespace-only question is a
complete no-op. -/
theorem askQuestion_empty_noop_witness :
    askQuestion ⟨"   ", "", false, none, "simple", none, [], false, "Send"⟩ =
      (⟨"   ", "", false, none, "simple", none, [], false, "Send"⟩, none) :=
  askQuestion_empty_noop ⟨"   ", "", false, none, "simple", none, [], false, "Send"⟩ (by decide)

/-- Modelled from the spec: a Document of the Document Registry —
id, title, filename and total_chapters, with 0 meaning the chapter
count is unknown (spec section 3; the backend code is not in the
supplied sources). -/
structure Document where
  id : Nat
  title : String
  filename : String
  total_chapters : Nat
deriving Repr, DecidableEq

/-- Modelled from the spec: a Chunk, the unit of retrieval and of
citation, owned by its document (spec section 3).  The chapter number
the chunk belongs to is carried explicitly since the spoiler ceiling
filters on it. -/
structure Chunk where
  document_id : Nat
  chunk_index : Nat
  chapter : Nat
  chapter_title : Option String
  is_reference : Bool
deriving Repr, DecidableEq

/-- Modelled from the spec: a Session of the Session Store — an opaque
id and the ordered history of (question, answer) pairs (spec
section 3). -/
structure Session where
  session_id : String
  history : List (String × String)
deriving Repr, DecidableEq

/-- Modelled from the spec: the resolved Query Scope — optional
document filter, optional effective chapter ceiling, reference
inclusion flag (spec sections 3 and 4.2). -/
structure Scope where
  document_id : Option Nat
  max_chapter : Option Nat
  include_reference : Bool
deriving Repr, DecidableEq

/-- Modelled from the spec: the whole backend state — Document
Registry, its chunks, and the Session Store. -/
structure Backend where
  documents : List Document
  chunks : List Chunk
  sessions : List Session
deriving Repr, DecidableEq

/-- Modelled from the spec: the error taxonomy relevant to scoped
requests (spec section 7). -/
inductive ApiError
  | notFound
  | invalid
deriving Repr, DecidableEq

/-- Registry lookup: first document with the given id. -/
def findDoc (docs : List Document) (id : Nat) : Option Document :=
  docs.find? (fun d => d.id == id)

/-- Modelled from the spec: every chunk is owned by a registered
document (spec section 3, ownership invariant). -/
def wellFormed (b : Backend) : Prop :=
  ∀ c ∈ b.chunks, ∃ d ∈ b.documents, d.id = c.document_id

/-- Modelled from the spec: `resolveScope` (spec section 4.2).  An
unknown document id is NotFound (4.3); a non-positive requested
ceiling is Invalid (section 7); with a single document selected the
ceiling is clamped to the document's total_chapters, and a document
with unknown chapter count (0) yields no ceiling at all (fail-open);
with no document selected the requested ceiling is kept as a soft
per-document ceiling applied at eligibility. -/
def resolveScope (docs : List Document) (document_id : Option Nat)
    (max_chapter : Option Nat) (includeRef : Bool) : Except ApiError Scope :=
  match document_id with
  | none =>
    match max_chapter with
    | none => .ok ⟨none, none, includeRef⟩
    | some m =>
      if m = 0 then .error .invalid
      else .ok ⟨none, some m, includeRef⟩
  | some id =>
    match findDoc docs id with
    | none => .error .notFound
    | some d =>
      match max_chapter with
      | none => .ok ⟨some id, none, includeRef⟩
      | some m =>
        if m = 0 then .error .invalid
        else if d.total_chapters = 0 then .ok ⟨some id, none, includeRef⟩
        else .ok ⟨some id, some (min m d.total_chapters), includeRef⟩

/-- Document filter of a scope applied to one chunk. -/
def docMatches (scope : Scope) (c : Chunk) : Bool :=
  match scope.document_id with
  | some id => c.document_id == id
  | none => true

/-- Modelled from the spec: the chapter-ceiling test of a scope on one
chunk (spec section 4.2).  With a single document selected the ceiling
was already clamped at resolution; across all documents each
document's own chapter count bounds the filter, and a document with
unknown chapter count is not filtered (fail-open). -/
def chapterAllowed (docs : List Document) (scope : Scope) (c : Chunk) : Bool :=
  match scope.max_chapter with
  | none => true
  | some m =>
    match scope.document_id with
    | some _ => c.chapter ≤ m
    | none =>
      match findDoc docs c.document_id with
      | none => c.chapter ≤ m
      | some d => if d.total_chapters = 0 then true else c.chapter ≤ min m d.total_chapters

/-- Modelled from the spec: chunk eligibility under a scope (spec
sections 4.2 and glossary): the chunk must match the document filter,
and must be within the chapter ceiling or, when reference material is
included, be flagged as reference. -/
def chunkEligible (docs : List Document) (scope : Scope) (c : Chunk) : Bool :=
  docMatches scope c &&
    (chapterAllowed docs scope c || (scope.include_reference && c.is_reference))

/-- History of a session id in the store; a session never created has
empty history. -/
def sessionHistory : List Session → String → List (String × String)
  | [], _ => []
  | s :: rest, sid => if s.session_id == sid then s.history else sessionHistory rest sid

/-- Modelled from the spec: append one (question, answer) pair to a
session's history, lazily creating the session on first use (spec
section 4.3). -/
def appendTurn : List Session → String → String → String → List Session
  | [], sid, q, a => [⟨sid, [(q, a)]⟩]
  | s :: rest, sid, q, a =>
    if s.session_id == sid then ⟨s.session_id, s.history ++ [(q, a)]⟩ :: rest
    else s :: appendTurn rest sid q a

/-- Modelled from the spec: the conversational context supplied to the
generation step — prior turns up to an implementation-defined window,
modelled as the full history (spec section 4.3). -/
def contextWindow (history : List (String × String)) : List (String × String) :=
  history

/-- Modelled from the spec: the out-of-scope retrieval/generation
dependency (spec section 1, non-goals), as a concrete placeholder that
depends on the question, the conversational context and the retrieved
chunks. -/
def generateAnswer (question : String) (ctx : List (String × String))
    (retrieved : List Chunk) : String :=
  "(" ++ toString ctx.length ++ " prior turns, " ++ toString retrieved.length ++
    " chunks) " ++ question

/-- Modelled from the spec: the successful empty-sources answer text
(spec section 4.3, missing-context outcome). -/
def noContentMessage : String :=
  "No relevant content was found for your question."

/-- Citation of a chunk as a Source record (spec section 4.3). -/
def toSource (docs : List Document) (c : Chunk) : Source :=
  { document_title :=
      match findDoc docs c.document_id with
      | some d => d.title
      | none => ""
    chapter_title := c.chapter_title
    chunk_index := c.chunk_index
    is_reference := c.is_reference }

/-- Modelled from the spec: the Answer Service result (spec
section 4.3). -/
structure AnswerResult where
  answer : String
  sources : List Source
  spoiler_filter_active : Bool
  max_chapter : Option Nat
deriving Repr, DecidableEq

/-- Modelled from the spec: `answer` (spec section 4.3).  Resolve the
scope (propagating NotFound/Invalid without touching state), retrieve
the eligible chunks, generate the answer with the session's context
when a session id is given, echo the effective ceiling, and on success
append the new turn to the session's history. -/
def answer (b : Backend) (question : String) (document_id : Option Nat)
    (max_chapter : Option Nat) (includeRef : Bool) (session_id : Option String) :
    Except ApiError AnswerResult × Backend :=
  match resolveScope b.documents document_id max_chapter includeRef with
  | .error e => (.error e, b)
  | .ok scope =>
    let retrieved := b.chunks.filter (chunkEligible b.documents scope)
    let ctx :=
      match session_id with
      | some sid => contextWindow (sessionHistory b.sessions sid)
      | none => []
    let text := if retrieved.isEmpty then noContentMessage else generateAnswer question ctx retrieved
    let result : AnswerResult :=
      { answer := text
        sources := retrieved.map (toSource b.documents)
        spoiler_filter_active := scope.max_chapter.isSome
        max_chapter := scope.max_chapter }
    let sessions2 :=
      match session_id with
      | some sid => appendTurn b.sessions sid question text
      | none => b.sessions
    (.ok result, { b with sessions := sessions2 })

/-- Modelled from the spec: `delete` of the Document Registry (spec
section 4.1): removes the document and its chunks in one atomic state
transition, or NotFound when the id is unknown. -/
def deleteDocument (b : Backend) (id : Nat) : Except ApiError Backend :=
  if b.documents.any (fun d => d.id == id) then
    .ok { b with
          documents := b.documents.filter (fun d => d.id != id)
          chunks := b.chunks.filter (fun c => c.document_id != id) }
  else .error .notFound

/-- Modelled from the spec: the Status Reporter result (spec
section 4.4). -/
structure StatusResult where
  documents_loaded : Nat
  total_chunks : Nat
  status : String
deriving Repr, DecidableEq

/-- Modelled from the spec: `status` (spec section 4.4): aggregate
counts, ready iff at least one registered document has chunks. -/
def status (b : Backend) : StatusResult :=
  { documents_loaded := b.documents.length
    total_chunks := b.chunks.length
    status :=
      if b.documents.any (fun d => b.chunks.any (fun c => c.document_id == d.id))
      then "ready" else "not_ready" }

/-- Status read paired with the state it leaves behind, to state that
the call has no side effects. -/
def statusOp (b : Backend) : StatusResult × Backend :=
  (status b, b)

/-- One sequential conversational call: ask over all documents with no
ceiling under a fixed session id, keeping the resulting state. -/
def askSession (b : Backend) (sid : String) (q : String) : Backend :=
  (answer b q none none true (some sid)).2

/-- Sequential conversational use: fold a list of questions through
`askSession` under one session id. -/
def runQuestions (b : Backend) (sid : String) (qs : List String) : Backend :=
  qs.foldl (fun st q => askSession st sid q) b

/-- Demo registry for concrete scenarios: one five-chapter book with
three story chunks and one reference chunk past the ceiling. -/
def demoBackend : Backend :=
  { documents := [⟨1, "Demo Book", "demo.txt", 5⟩]
    chunks := [⟨1, 0, 1, some "Chapter 1", false⟩, ⟨1, 1, 3, none, false⟩,
               ⟨1, 2, 4, some "Chapter 4", false⟩, ⟨1, 3, 5, some "Appendix", true⟩]
    sessions := [] }

/-- Registry with a document of unknown chapter count, for the
fail-open scenario. -/
def zeroBackend : Backend :=
  { documents := [⟨7, "Unknown Count", "u.txt", 0⟩]
    chunks := [⟨7, 0, 42, none, false⟩]
    sessions := [] }

/-- Appending a turn extends exactly the history seen under that
session id, creating the session when absent. -/
theorem sessionHistory_appendTurn (ss : List Session) (sid q a : String) :
    sessionHistory (appendTurn ss sid q a) sid = sessionHistory ss sid ++ [(q, a)] := by
  induction ss with
  | nil => simp [appendTurn, sessionHistory]
  | cons s rest ih =>
    by_cases h : s.session_id = sid
    · simp [appendTurn, sessionHistory, h]
    · simp [appendTurn, sessionHistory, h, ih]

/-- C7: `status` reports `"ready"` iff at least one registered document
owns a chunk; with zero documents it reports zero documents loaded and
`"not_ready"`; and the call is a pure read, leaving the backend state
untouched. -/
theorem status_ready_iff_pure (b : Backend) :
    ((status b).status = "ready" ↔ ∃ d ∈ b.documents, ∃ c ∈ b.chunks, c.document_id = d.id) ∧
      (b.documents = [] → (status b).documents_loaded = 0 ∧ (status b).status = "not_ready") ∧
      (statusOp b).2 = b := by
  refine ⟨?_, ?_, rfl⟩
  · by_cases h : (b.documents.any (fun d => b.chunks.any (fun c => c.document_id == d.id))) = true
    · simp only [status, h, if_true]
      simp only [List.any_eq_true, beq_iff_eq] at h
      exact ⟨fun _ => h, fun _ => by trivial⟩
    · simp only [status, h, if_false]
      constructor
      · intro hcontra; exact absurd hcontra (by decide)
      · intro hex
        exfalso
        exact h (by simpa only [List.any_eq_true, beq_iff_eq] using hex)
  · intro hnil
    simp [status, hnil]

/-- Concrete run of the C7 theorem: an empty registry reports zero
documents and not_ready, and reading status over the demo registry
leaves it unchanged. -/
theorem status_ready_iff_pure_witness :
    ((status ⟨[], [], []⟩).documents_loaded = 0 ∧ (status ⟨[], [], []⟩).status = "not_ready") ∧
      (statusOp demoBackend).2 = demoBackend :=
  ⟨(status_ready_iff_pure ⟨[], [], []⟩).2.1 rfl, (status_ready_iff_pure demoBackend).2.2⟩

/-- C9: when the selected document reports an unknown chapter count
(total_chapters = 0), a requested ceiling resolves to no ceiling at
all, and eligibility degenerates to the document filter alone: no
chunk of the document is excluded by a chapter ceiling. -/
theorem total_chapters_zero_fail_open (b : Backend) (id : Nat) (d : Document) (m : Nat)
    (r : Bool) (hd : findDoc b.documents id = some d) (h0 : d.total_chapters = 0)
    (hm : m ≠ 0) :
    resolveScope b.documents (some id) (some m) r = .ok ⟨some id, none, r⟩ ∧
      ∀ c : Chunk, chunkEligible b.documents ⟨some id, none, r⟩ c = (c.document_id == id) := by
  constructor
  · simp [resolveScope, hd, hm, h0]
  · intro c
    simp [chunkEligible, docMatches, chapterAllowed]

/-- Concrete run of the C9 theorem: a chunk labelled chapter 42 stays
eligible when its document's chapter count is unknown and chapter 4
was requested. -/
theorem total_chapters_zero_fail_open_witness :
    resolveScope zeroBackend.documents (some 7) (some 4) true = .ok ⟨some 7, none, true⟩ ∧
      chunkEligible zeroBackend.documents ⟨some 7, none, true⟩ ⟨7, 0, 42, none, false⟩ =
        ((7 : Nat) == 7) :=
  ⟨(total_chapters_zero_fail_open zeroBackend 7 ⟨7, "Unknown Count", "u.txt", 0⟩ 4 true rfl
      rfl (by decide)).1,
    (total_chapters_zero_fail_open zeroBackend 7 ⟨7, "Unknown Count", "u.txt", 0⟩ 4 true rfl
      rfl (by decide)).2 ⟨7, 0, 42, none, false⟩⟩

/-- C2: with a single known document selected, a requested ceiling
resolves to the clamp min m total_chapters, which lies in the interval
from 1 to total_chapters; consequently requesting chapter 999 of a
ten-chapter document resolves and answers exactly as requesting
chapter 10. -/
theorem max_chapter_clamped (b : Backend) (id : Nat) (d : Document) (m : Nat) (r : Bool)
    (hd : findDoc b.documents id = some d) (htc : d.total_chapters ≠ 0) (hm : m ≠ 0) :
    (resolveScope b.documents (some id) (some m) r =
        .ok ⟨some id, some (min m d.total_chapters), r⟩ ∧
      1 ≤ min m d.total_chapters ∧ min m d.total_chapters ≤ d.total_chapters) ∧
      (d.total_chapters = 10 → ∀ (q : String) (sid : Option String),
        answer b q (some id) (some 999) r sid = answer b q (some id) (some 10) r sid) := by
  constructor
  · refine ⟨by simp [resolveScope, hd, hm, htc], ?_, Nat.min_le_right m d.total_chapters⟩
    have h1 : 1 ≤ m := Nat.one_le_iff_ne_zero.mpr hm
    have h2 : 1 ≤ d.total_chapters := Nat.one_le_iff_ne_zero.mpr htc
    omega
  · intro h10 q sid
    have e1 : resolveScope b.documents (some id) (some 999) r = .ok ⟨some id, some 10, r⟩ := by
      simp [resolveScope, hd, h10]
    have e2 : resolveScope b.documents (some id) (some 10) r = .ok ⟨some id, some 10, r⟩ := by
      simp [resolveScope, hd, h10]
    simp [answer, e1, e2]

/-- Concrete run of the C2 theorem: requesting chapter 7 of the
five-chapter demo book clamps to 5. -/
theorem max_chapter_clamped_witness :
    resolveScope demoBackend.documents (some 1) (some 7) true =
        .ok ⟨some 1, some (min 7 5), true⟩ ∧
      1 ≤ min 7 5 ∧ min 7 5 ≤ (5 : Nat) :=
  (max_chapter_clamped demoBackend 1 ⟨1, "Demo Book", "demo.txt", 5⟩ 7 true rfl (by decide)
    (by decide)).1

/-- C5: reference inclusion is monotonic — a chunk eligible with
include_reference off stays eligible with it on, so the filtered set
only grows; and with include_reference off a reference chunk inside
the chapter ceiling is still included. -/
theorem include_reference_monotonic (docs : List Document) (did : Option Nat)
    (mc : Option Nat) (c : Chunk) (chunks : List Chunk) :
    (chunkEligible docs ⟨did, mc, false⟩ c = true →
        chunkEligible docs ⟨did, mc, true⟩ c = true) ∧
      (chunks.filter (chunkEligible docs ⟨did, mc, false⟩) ⊆
        chunks.filter (chunkEligible docs ⟨did, mc, true⟩)) ∧
      (c.is_reference = true → docMatches ⟨did, mc, false⟩ c = true →
        chapterAllowed docs ⟨did, mc, false⟩ c = true →
        chunkEligible docs ⟨did, mc, false⟩ c = true) := by
  have mono : ∀ x : Chunk, chunkEligible docs ⟨did, mc, false⟩ x = true →
      chunkEligible docs ⟨did, mc, true⟩ x = true := by
    intro x hx
    simp only [chunkEligible, Bool.and_eq_true, Bool.or_eq_true] at hx ⊢
    rcases hx with ⟨hdm, hch | href⟩
    · exact ⟨hdm, Or.inl hch⟩
    · simp at href
  refine ⟨mono c, ?_, ?_⟩
  · intro x hx
    simp only [List.mem_filter] at hx ⊢
    exact ⟨hx.1, mono x hx.2⟩
  · intro _ hdm hch
    simp [chunkEligible, hdm, hch]

/-- Concrete run of the C5 theorem: the chapter-1 chunk eligible with
references off stays in the filtered set with references on, and a
reference chunk inside the ceiling is eligible with references off. -/
theorem include_reference_monotonic_witness :
    (⟨1, 0, 1, some "Chapter 1", false⟩ : Chunk) ∈
        demoBackend.chunks.filter
          (chunkEligible demoBackend.documents ⟨some 1, some 3, true⟩) ∧
      chunkEligible demoBackend.documents ⟨some 1, some 3, false⟩ ⟨1, 9, 2, none, true⟩ =
        true :=
  ⟨(include_reference_monotonic demoBackend.documents (some 1) (some 3)
        ⟨1, 0, 1, some "Chapter 1", false⟩ demoBackend.chunks).2.1 (by decide),
    (include_reference_monotonic demoBackend.documents (some 1) (some 3)
        ⟨1, 9, 2, none, true⟩ demoBackend.chunks).2.2 rfl rfl (by decide)⟩

/-- Result computed by the C1 demo scenario: ask about the five-chapter
demo book with ceiling 3 and reference material included. -/
def demoAnswerResult : AnswerResult :=
  { answer := "(0 prior turns, 3 chunks) What happens next"
    sources := [⟨"Demo Book", some "Chapter 1", 0, false⟩, ⟨"Demo Book", none, 1, false⟩,
                ⟨"Demo Book", some "Appendix", 3, true⟩]
    spoiler_filter_active := true
    max_chapter := some 3 }

/-- C1: every successful answer reports `spoiler_filter_active` true
exactly when the resolved scope carries a chapter ceiling and echoes
that ceiling in `max_chapter`; in the demo scenario (five chapters,
ceiling 3, references on) the filter is active at ceiling 3 and every
source cites a chunk with chapter at most 3 or flagged reference. -/
theorem spoiler_filter_echo :
    (∀ (b : Backend) (q : String) (d m : Option Nat) (r : Bool) (sid : Option String)
        (res : AnswerResult) (b2 : Backend) (scope : Scope),
      resolveScope b.documents d m r = .ok scope →
      answer b q d m r sid = (.ok res, b2) →
      res.spoiler_filter_active = scope.max_chapter.isSome ∧
        res.max_chapter = scope.max_chapter) ∧
      ((answer demoBackend "What happens next" (some 1) (some 3) true none).1 =
          .ok demoAnswerResult ∧
        demoAnswerResult.spoiler_filter_active = true ∧
        demoAnswerResult.max_chapter = some 3 ∧
        ∀ s ∈ demoAnswerResult.sources, ∃ c ∈ demoBackend.chunks,
          c.document_id = 1 ∧ c.chunk_index = s.chunk_index ∧
            (c.chapter ≤ 3 ∨ c.is_reference = true)) := by
  constructor
  · intro b q d m r sid res b2 scope hscope hans
    simp only [answer, hscope] at hans
    rw [Prod.mk.injEq] at hans
    obtain ⟨ha, _⟩ := hans
    rw [Except.ok.injEq] at ha
    rw [← ha]
    exact ⟨rfl, rfl⟩
  · exact ⟨rfl, rfl, rfl, by decide⟩

/-- Concrete run of the C1 theorem: on an empty registry with no
requested ceiling the answer reports the filter off and echoes no
ceiling. -/
theorem spoiler_filter_echo_witness :
    (⟨noContentMessage, [], false, none⟩ : AnswerResult).spoiler_filter_active =
        (⟨none, none, true⟩ : Scope).max_chapter.isSome ∧
      (⟨noContentMessage, [], false, none⟩ : AnswerResult).max_chapter =
        (⟨none, none, true⟩ : Scope).max_chapter :=
  spoiler_filter_echo.1 ⟨[], [], []⟩ "Q" none none true none
    ⟨noContentMessage, [], false, none⟩ ⟨[], [], []⟩ ⟨none, none, true⟩ rfl rfl

/-- C3: an unknown document id makes `answer` return NotFound with the
state untouched, never falling back to all documents; after a delete
the id is unregistered, no chunk of it survives, a scoped ask on it is
NotFound, and no successful answer on the post-delete state cites a
chunk of the deleted document. -/
theorem deleted_document_notFound (b : Backend) (id : Nat) (q : String) (m : Option Nat)
    (r : Bool) (sid : Option String) :
    (findDoc b.documents id = none → answer b q (some id) m r sid = (.error .notFound, b)) ∧
      (∀ b2 : Backend, deleteDocument b id = .ok b2 →
        answer b2 q (some id) m r sid = (.error .notFound, b2) ∧
          findDoc b2.documents id = none ∧
          (∀ c ∈ b2.chunks, c.document_id ≠ id) ∧
          (∀ (d2 m2 : Option Nat) (r2 : Bool) (res : AnswerResult) (b3 : Backend),
            answer b2 q d2 m2 r2 sid = (.ok res, b3) →
            ∀ s ∈ res.sources, ∃ c ∈ b2.chunks, c.document_id ≠ id ∧
              toSource b2.documents c = s)) := by
  have hnf : ∀ b' : Backend, findDoc b'.documents id = none →
      answer b' q (some id) m r sid = (.error .notFound, b') := by
    intro b' h
    simp [answer, resolveScope, h]
  refine ⟨hnf b, ?_⟩
  intro b2 hdel
  unfold deleteDocument at hdel
  by_cases hany : (b.documents.any (fun d => d.id == id)) = true
  · rw [if_pos hany, Except.ok.injEq] at hdel
    subst hdel
    have hdocs : findDoc (b.documents.filter (fun d => d.id != id)) id = none := by
      apply List.find?_eq_none.mpr
      intro x hx
      rw [List.mem_filter, bne_iff_ne] at hx
      simpa using hx.2
    have hchunks : ∀ c ∈ b.chunks.filter (fun c => c.document_id != id),
        c.document_id ≠ id := by
      intro c hc
      rw [List.mem_filter, bne_iff_ne] at hc
      exact hc.2
    refine ⟨hnf _ hdocs, hdocs, hchunks, ?_⟩
    intro d2 m2 r2 res b3 hans s hs
    cases hscope : resolveScope (b.documents.filter (fun d => d.id != id)) d2 m2 r2 with
    | error e => simp [answer, hscope] at hans
    | ok scope =>
      simp only [answer, hscope] at hans
      rw [Prod.mk.injEq] at hans
      obtain ⟨ha, _⟩ := hans
      rw [Except.ok.injEq] at ha
      rw [← ha] at hs
      simp only [List.mem_map] at hs
      obtain ⟨c, hcmem, hceq⟩ := hs
      rw [List.mem_filter] at hcmem
      exact ⟨c, hcmem.1, hchunks c hcmem.1, hceq⟩
  · rw [if_neg hany] at hdel
    simp at hdel

/-- Concrete run of the C3 theorem: asking the demo registry about the
unregistered id 2 is NotFound, and after deleting the demo book an ask
scoped to its id 1 is NotFound as well. -/
theorem deleted_document_notFound_witness :
    answer demoBackend "Q" (some 2) none true none = (.error .notFound, demoBackend) ∧
      answer ⟨[], [], []⟩ "Q" (some 1) none true none = (.error .notFound, ⟨[], [], []⟩) :=
  ⟨(deleted_document_notFound demoBackend 2 "Q" none true none).1 rfl,
    ((deleted_document_notFound demoBackend 1 "Q" none true none).2 ⟨[], [], []⟩ rfl).1⟩

/-- Text of one sequential conversational call, for stating what the
next call's context holds. -/
def askText (b : Backend) (sid q : String) : String :=
  match (answer b q none none true (some sid)).1 with
  | .ok res => res.answer
  | .error _ => ""

/-- C4: a successful answer under a session id appends exactly its own
(question, answer) pair at the end of that session's history; a failed
answer leaves the state untouched; after N sequential conversational
calls the history holds exactly those N questions in completion
order; and each call's context contains the previous call's question
and answer. -/
theorem session_history_exact :
    (∀ (b : Backend) (sid q : String) (d m : Option Nat) (r : Bool) (res : AnswerResult)
        (b2 : Backend),
      answer b q d m r (some sid) = (.ok res, b2) →
      sessionHistory b2.sessions sid = sessionHistory b.sessions sid ++ [(q, res.answer)]) ∧
      (∀ (b : Backend) (q : String) (d m : Option Nat) (r : Bool) (sid2 : Option String)
          (e : ApiError) (b2 : Backend),
        answer b q d m r sid2 = (.error e, b2) → b2 = b) ∧
      (∀ (b : Backend) (sid : String) (qs : List String),
        (sessionHistory (runQuestions b sid qs).sessions sid).map Prod.fst =
          (sessionHistory b.sessions sid).map Prod.fst ++ qs) ∧
      (∀ (b : Backend) (sid q1 : String),
        (q1, askText b sid q1) ∈
          contextWindow (sessionHistory (askSession b sid q1).sessions sid)) := by
  refine ⟨?_, ?_, ?_, ?_⟩
  · intro b sid q d m r res b2 hans
    cases hscope : resolveScope b.documents d m r with
    | error e => simp [answer, hscope] at hans
    | ok scope =>
      simp only [answer, hscope] at hans
      rw [Prod.mk.injEq] at hans
      obtain ⟨ha, hb⟩ := hans
      rw [Except.ok.injEq] at ha
      rw [← hb, ← ha]
      exact sessionHistory_appendTurn b.sessions sid q _
  · intro b q d m r sid2 e b2 hans
    cases hscope : resolveScope b.documents d m r with
    | error e2 =>
      simp only [answer, hscope] at hans
      rw [Prod.mk.injEq] at hans
      exact hans.2.symm
    | ok scope => simp [answer, hscope] at hans
  · intro b sid qs
    induction qs generalizing b with
    | nil => simp [runQuestions]
    | cons q qs ih =>
      rw [show runQuestions b sid (q :: qs) = runQuestions (askSession b sid q) sid qs from
        rfl, ih]
      have hh : sessionHistory (askSession b sid q).sessions sid =
          sessionHistory b.sessions sid ++ [(q, askText b sid q)] := by
        simp only [askSession, askText, answer, resolveScope]
        rw [sessionHistory_appendTurn]
      rw [hh]
      simp
  · intro b sid q1
    simp only [askSession, askText, answer, resolveScope, contextWindow]
    rw [sessionHistory_appendTurn]
    simp

/-- Concrete run of the C4 theorem: two sequential questions on a fresh
store leave exactly those two questions in order, the first call
appends exactly its pair, and its pair is in the second call's
context. -/
theorem session_history_exact_witness :
    (sessionHistory (runQuestions ⟨[], [], []⟩ "s" ["q1", "q2"]).sessions "s").map Prod.fst =
        (sessionHistory (Backend.mk [] [] []).sessions "s").map Prod.fst ++ ["q1", "q2"] ∧
      sessionHistory (Backend.mk [] [] [⟨"s", [("q1", noContentMessage)]⟩]).sessions "s" =
        sessionHistory (Backend.mk [] [] []).sessions "s" ++
          [("q1", (⟨noContentMessage, [], false, none⟩ : AnswerResult).answer)] ∧
      ("q1", askText ⟨[], [], []⟩ "s" "q1") ∈
        contextWindow (sessionHistory (askSession ⟨[], [], []⟩ "s" "q1").sessions "s") :=
  ⟨session_history_exact.2.2.1 ⟨[], [], []⟩ "s" ["q1", "q2"],
    session_history_exact.1 ⟨[], [], []⟩ "s" "q1" none none true
      ⟨noContentMessage, [], false, none⟩ ⟨[], [], [⟨"s", [("q1", noContentMessage)]⟩]⟩ rfl,
    session_history_exact.2.2.2 ⟨[], [], []⟩ "s" "q1"⟩

/-- C6: a well-formed scope that matches zero chunks — in particular
any scope over an empty registry — yields a successful answer with no
sources and the no-content message, not an error. -/
theorem empty_scope_answer_not_error :
    (∀ (b : Backend) (q : String) (d m : Option Nat) (r : Bool) (sid : Option String)
        (scope : Scope),
      resolveScope b.documents d m r = .ok scope →
      b.chunks.filter (chunkEligible b.documents scope) = [] →
      (answer b q d m r sid).1 =
        .ok { answer := noContentMessage, sources := [],
              spoiler_filter_active := scope.max_chapter.isSome,
              max_chapter := scope.max_chapter }) ∧
      (∀ (b : Backend) (q : String) (m : Option Nat) (r : Bool) (sid : Option String),
        wellFormed b → b.documents = [] → m ≠ some 0 →
        (answer b q none m r sid).1 =
          .ok { answer := noContentMessage, sources := [],
                spoiler_filter_active := m.isSome, max_chapter := m }) := by
  constructor
  · intro b q d m r sid scope hscope hempty
    simp [answer, hscope, hempty]
  · intro b q m r sid hwf hdocs hm
    have hchunks : b.chunks = [] := by
      apply List.eq_nil_iff_forall_not_mem.mpr
      intro c hc
      obtain ⟨d, hd, _⟩ := hwf c hc
      rw [hdocs] at hd
      exact absurd hd (List.not_mem_nil d)
    cases m with
    | none => simp [answer, resolveScope, hchunks]
    | some m0 =>
      have hm0 : m0 ≠ 0 := fun h => hm (by rw [h])
      simp [answer, resolveScope, hchunks, hm0]

/-- Concrete run of the C6 theorem: asking an empty registry with a
ceiling of 2 succeeds with no sources and the no-content message. -/
theorem empty_scope_answer_not_error_witness :
    (answer ⟨[], [], []⟩ "Q" none (some 2) true none).1 =
      .ok { answer := noContentMessage, sources := [],
            spoiler_filter_active := (some 2 : Option Nat).isSome, max_chapter := some 2 } :=
  empty_scope_answer_not_error.2 ⟨[], [], []⟩ "Q" (some 2) true none
    (fun c hc => absurd hc (List.not_mem_nil c)) rfl (by decide)
